import Mathlib

/- Formal model of the GitVault main-process Git command layer.

   The string helpers below mirror the JavaScript string operations used
   by the handlers (substring containment, lower-casing, trimming,
   splitting, slicing), implemented structurally over character lists so
   that concrete instances evaluate in the kernel.

   Each IPC handler is embedded as a pure function over an environment
   recording the outcomes of the external git invocations the handler
   may perform; the second component of a handler result is the trace of
   git argument lists issued, in order.  Fallible invocations are
   Except values: Except.ok is a zero exit with trimmed stdout,
   Except.error carries the failure text (stderr or error message). -/

/-- ASCII lower-casing of one character, as JavaScript toLowerCase acts
on the ASCII range used by git error text. -/
def chLower (c : Char) : Char :=
  if 65 ≤ c.toNat ∧ c.toNat ≤ 90 then Char.ofNat (c.toNat + 32) else c

/-- Lower-case a string character by character. -/
def strToLower (s : String) : String := ⟨s.data.map chLower⟩

/-- Check that the needle occurs at the head of the haystack. -/
def matchAt : List Char → List Char → Bool
  | [], _ => true
  | _ :: _, [] => false
  | c :: cs, d :: ds => c == d && matchAt cs ds

/-- Check that the needle occurs somewhere in the haystack. -/
def hasSub (needle : List Char) : List Char → Bool
  | [] => needle.isEmpty
  | d :: t => matchAt needle (d :: t) || hasSub needle t

/-- JavaScript String.includes: substring containment. -/
def strIncludes (hay sub : String) : Bool := hasSub sub.data hay.data

/-- JavaScript String.trim restricted to the whitespace characters that
occur in git output. -/
def strTrim (s : String) : String :=
  ⟨((s.data.dropWhile Char.isWhitespace).reverse.dropWhile Char.isWhitespace).reverse⟩

/-- JavaScript String.substring(0, n). -/
def strTake (s : String) (n : Nat) : String := ⟨s.data.take n⟩

/-- JavaScript String.substring(n). -/
def strDrop (s : String) (n : Nat) : String := ⟨s.data.drop n⟩

/-- Split a character list at every occurrence of the separator; an
empty input yields one empty piece, as JavaScript String.split does. -/
def splitChAux (c : Char) : List Char → List (List Char)
  | [] => [[]]
  | d :: ds =>
    let r := splitChAux c ds
    if d == c then [] :: r
    else
      match r with
      | [] => [[d]]
      | h :: t => (d :: h) :: t

/-- JavaScript split on a newline. -/
def splitLines (s : String) : List String :=
  (splitChAux '\n' s.data).map (fun l => (⟨l⟩ : String))

/-- JavaScript split on a vertical bar, used by the log parser. -/
def splitBar (s : String) : List String :=
  (splitChAux '|' s.data).map (fun l => (⟨l⟩ : String))

/-- Remove the first star character, as the JavaScript
replace applied to one star does in the branches handler. -/
def dropFirstStar : List Char → List Char
  | [] => []
  | c :: cs => if c == '*' then cs else c :: dropFirstStar cs

/-- Branch line cleanup step before trimming. -/
def removeFirstStar (s : String) : String := ⟨dropFirstStar s.data⟩

/-- Network pattern set of classifyGitError, from src/unnamed/part_001
lines 231 to 236. -/
def networkPatterns : List String :=
  ["could not resolve host", "unable to access", "connection refused",
   "network is unreachable", "timed out", "timeout"]

/-- Network rule of classifyGitError. -/
def isNetworkErr (msg : String) : Bool :=
  strIncludes msg "could not resolve host" || strIncludes msg "unable to access" ||
  strIncludes msg "connection refused" || strIncludes msg "network is unreachable" ||
  strIncludes msg "timed out" || strIncludes msg "timeout"

/-- Authentication rule of classifyGitError. -/
def isAuthErr (msg : String) : Bool :=
  strIncludes msg "authentication failed" || strIncludes msg "permission denied" ||
  strIncludes msg "could not read from remote" || strIncludes msg "invalid credentials" ||
  strIncludes msg "denied" || strIncludes msg "403" || strIncludes msg "401"

/-- Conflict and rejection rule of classifyGitError. -/
def isConflictErr (msg : String) : Bool :=
  strIncludes msg "rejected" || strIncludes msg "non-fast-forward" ||
  strIncludes msg "fetch first" || strIncludes msg "cannot lock ref"

/-- Missing upstream rule of classifyGitError. -/
def isNoUpstreamErr (msg : String) : Bool :=
  strIncludes msg "no upstream" || strIncludes msg "does not have a commit checked out" ||
  strIncludes msg "no tracking information"

/-- Error classifier from src/unnamed/part_001 lines 227 to 267: the
message is lower-cased and the first matching rule wins. -/
def classifyGitError (message : String) : String :=
  let msg := strToLower message
  if isNetworkErr msg then "NETWORK_ERROR"
  else if isAuthErr msg then "AUTH_ERROR"
  else if isConflictErr msg then "CONFLICT_ERROR"
  else if isNoUpstreamErr msg then "NO_UPSTREAM"
  else "UNKNOWN_ERROR"

/-- User facing message table from src/unnamed/part_001 lines 272 to 282. -/
def getHumanReadableError (errorType originalMessage : String) : String :=
  if errorType = "NETWORK_ERROR" then "Network error. Check your internet connection."
  else if errorType = "AUTH_ERROR" then "Authentication failed. Check your credentials or SSH keys."
  else if errorType = "CONFLICT_ERROR" then "Push rejected. Pull remote changes first."
  else if errorType = "NO_UPSTREAM" then "No upstream branch configured."
  else if errorType = "NO_REMOTE" then "No remote repository configured."
  else if errorType = "UNKNOWN_ERROR" then
    (if originalMessage = "" then "An unexpected error occurred." else originalMessage)
  else originalMessage

deriving instance DecidableEq for Except

/-- Structured result returned by the git handlers. -/
structure GitOpResult where
  success : Bool
  result : Option String := none
  error : Option String := none
  errorType : Option String := none
deriving DecidableEq

/-- One status line entry. -/
structure StatusEntry where
  file : String
  status : String
deriving DecidableEq

/-- Status code mapping from the status handler: a cascade of
reassignments where the last matching test wins, starting from the
default of modified. -/
def statusTextOf (status : String) : String :=
  let t0 := "modified"
  let t1 := if status = "A" ∨ strIncludes status "A" = true then "added" else t0
  let t2 := if status = "D" ∨ strIncludes status "D" = true then "deleted" else t1
  let t3 := if status = "M" ∨ strIncludes status "M" = true then "modified" else t2
  if status = "??" then "untracked" else t3

/-- One porcelain status line: the first two columns, trimmed, give the
state code; the rest of the line from column three, trimmed, gives the
file path. -/
def parseStatusLine (line : String) : StatusEntry :=
  { file := strTrim (strDrop line 3), status := statusTextOf (strTrim (strTake line 2)) }

/-- Porcelain output parser: split on newlines, keep non-blank lines,
map each to a status entry. -/
def parseStatus (out : String) : List StatusEntry :=
  ((splitLines out).filter (fun l => !(strTrim l == ""))).map parseStatusLine

/-- Status handler over the outcome of the porcelain status command:
every failure yields the empty list. -/
def gitStatus (res : Except String String) : List StatusEntry :=
  match res with
  | .error _ => []
  | .ok out => if out = "" then [] else parseStatus out

/-- One commit log entry; a missing field of the bar-separated line is
none, as a JavaScript destructuring of a short array leaves it
undefined. -/
structure CommitEntry where
  hash : Option String
  author : Option String
  date : Option String
  message : Option String
deriving DecidableEq

/-- One log line split on bars into at most four fields. -/
def parseLogLine (line : String) : CommitEntry :=
  let parts := splitBar line
  { hash := parts.get? 0, author := parts.get? 1,
    date := parts.get? 2, message := parts.get? 3 }

/-- Log handler over the outcome of the log command: every failure
yields the empty list. -/
def gitLog (res : Except String String) : List CommitEntry :=
  match res with
  | .error _ => []
  | .ok out =>
    if out = "" then []
    else ((splitLines out).filter (fun l => !(strTrim l == ""))).map parseLogLine

/-- Branches handler over the outcome of the branch listing command:
every failure yields the empty list; each line loses a first star and
surrounding whitespace, blank results are dropped. -/
def gitBranches (res : Except String String) : List String :=
  match res with
  | .error _ => []
  | .ok out =>
    if out = "" then []
    else ((splitLines out).map (fun b => strTrim (removeFirstStar b))).filter (fun b => !(b == ""))

/-- Argument list built by the commit handler of src/unnamed/part_001
lines 367 to 374: the message is one element of the list handed to
execFile, never interpolated into a shell string. -/
def commitArgs (message : String) : List String := ["commit", "-m", message]

/-- Argument vector a child process receives from execFile: the
executable followed by the argument list, with no shell interpretation. -/
def execFileArgv (file : String) (args : List String) : List String := file :: args

/-- Commit handler: result of the commit invocation paired with the
argument list it was issued with. -/
def gitCommit (message : String) (runResult : Except String String) :
    GitOpResult × List String :=
  (match runResult with
   | .ok r => { success := true, result := some (if r = "" then "Commit completed" else r) }
   | .error e => { success := false, error := some e },
   commitArgs message)

/-- Environment of one pull call: outcomes of the invocations the
handler of src/main-process-handlers.js lines 396 to 452 may issue. -/
structure PullEnv where
  remoteUrl : Option String
  branch : Option String
  rebasePullA : Except String String
  stash : Except String String
  rebasePullB : Except String String
  stashPop : Except String String
  plainPull : Except String String
deriving DecidableEq

/-- Rebase pull command for a branch. -/
def pullCmdRebase (b : String) : List String := ["pull", "--rebase", "origin", b]

/-- Plain pull command for a branch. -/
def pullCmdPlain (b : String) : List String := ["pull", "origin", b]

/-- Pull handler from src/main-process-handlers.js lines 396 to 452:
validate remote and branch, attempt a rebase pull, recover once by
stash, retried rebase pull and best-effort stash pop when the failure
text indicates unstaged or uncommitted changes, otherwise fall back to
one plain pull; a failed retried rebase pull also falls back to the
plain pull. -/
def gitPull (env : PullEnv) : GitOpResult × List (List String) :=
  let tr0 : List (List String) := [["remote", "get-url", "origin"], ["branch", "--show-current"]]
  match env.remoteUrl with
  | none => ({ success := false, error := some "No remote repository configured. Add a remote first." }, tr0)
  | some u =>
    if u = "" then
      ({ success := false, error := some "No remote repository configured. Add a remote first." }, tr0)
    else
      match env.branch with
      | none => ({ success := false, error := some "Not on any branch. Cannot pull." }, tr0)
      | some br =>
        if br = "" ∨ strTrim br = "" then
          ({ success := false, error := some "Not on any branch. Cannot pull." }, tr0)
        else
          let cb := strTrim br
          match env.rebasePullA with
          | .ok r => ({ success := true, result := some r }, tr0 ++ [pullCmdRebase cb])
          | .error msg =>
            let em := strToLower msg
            if strIncludes em "unstaged" || strIncludes em "uncommitted" then
              match env.stash with
              | .ok _ =>
                match env.rebasePullB with
                | .ok r =>
                  ({ success := true, result := some r },
                   tr0 ++ [pullCmdRebase cb, ["stash"], pullCmdRebase cb, ["stash", "pop"]])
                | .error _ =>
                  match env.plainPull with
                  | .ok fr =>
                    ({ success := true, result := some fr },
                     tr0 ++ [pullCmdRebase cb, ["stash"], pullCmdRebase cb, pullCmdPlain cb])
                  | .error ne =>
                    ({ success := false, error := some ne },
                     tr0 ++ [pullCmdRebase cb, ["stash"], pullCmdRebase cb, pullCmdPlain cb])
              | .error _ =>
                match env.plainPull with
                | .ok fr =>
                  ({ success := true, result := some fr },
                   tr0 ++ [pullCmdRebase cb, ["stash"], pullCmdPlain cb])
                | .error ne =>
                  ({ success := false, error := some ne },
                   tr0 ++ [pullCmdRebase cb, ["stash"], pullCmdPlain cb])
            else
              match env.plainPull with
              | .ok fr => ({ success := true, result := some fr }, tr0 ++ [pullCmdRebase cb, pullCmdPlain cb])
              | .error fe => ({ success := false, error := some fe }, tr0 ++ [pullCmdRebase cb, pullCmdPlain cb])

/-- Environment of one push call of the streaming handler of
src/unnamed/part_001 lines 85 to 124: outcome of the remote listing
(none when it failed and the catch substituted the empty string), the
branch query (none when it failed and the catch substituted HEAD) and
the push itself. -/
structure PushStreamEnv where
  remotes : Option String
  branchQuery : Option String
  pushResult : Except String String
deriving DecidableEq

/-- Streaming push handler from src/unnamed/part_001 lines 85 to 124:
a proactive remote check by substring containment of origin in the
remote listing, then a single push with the set-upstream flag; failures
are classified. -/
def gitPushStream (env : PushStreamEnv) : GitOpResult × List (List String) :=
  let remotes := env.remotes.getD ""
  if remotes = "" ∨ strIncludes remotes "origin" = false then
    ({ success := false, error := some "No remote repository configured. Add a remote first.",
       errorType := some "NO_REMOTE" }, [["remote"]])
  else
    let branch := (env.branchQuery.getD "HEAD")
    let tr := [["remote"], ["rev-parse", "--abbrev-ref", "HEAD"],
               ["push", "--set-upstream", "origin", branch, "--progress"]]
    match env.pushResult with
    | .ok out =>
      ({ success := true,
         result := some (if out = "" then "Push completed successfully" else out) }, tr)
    | .error msg =>
      let et := classifyGitError msg
      ({ success := false, error := some (getHumanReadableError et msg),
         errorType := some et }, tr)

/-- Outer catch of the push handler of src/main-process-handlers.js
lines 484 to 525: case-sensitive containment tests choose a fixed
message, otherwise the raw text is returned. -/
def pushErrorResult (errorMsg : String) : GitOpResult :=
  if strIncludes errorMsg "reject" || strIncludes errorMsg "non-fast-forward" then
    { success := false, error := some "Push rejected: Remote has newer commits. Pull first." }
  else if strIncludes errorMsg "Could not resolve host" || strIncludes errorMsg "unable to access" then
    { success := false, error := some "Network error: Check your internet connection." }
  else if strIncludes errorMsg "Authentication failed" || strIncludes errorMsg "denied" then
    { success := false, error := some "Authentication failed: Check your Git credentials." }
  else if strIncludes errorMsg "No configured push destination" || strIncludes errorMsg "no remote" then
    { success := false, error := some "No remote configured. Add a remote repository first." }
  else if strIncludes errorMsg "timed out" then
    { success := false, error := some "Push timeout: Large repository or slow connection. Try from terminal." }
  else { success := false, error := some errorMsg }

/-- Environment of one push call of the handler of
src/main-process-handlers.js lines 455 to 526: outcomes of the branch
query, the primary push and the upstream-setting retry. -/
structure PushExecEnv where
  branchQuery : Except String String
  pushPrimary : Except String String
  pushUpstream : Except String String
deriving DecidableEq

/-- Push handler from src/main-process-handlers.js lines 455 to 526:
branch check, primary push of origin and the branch, one retry with the
set-upstream flag only when the failure text names the flag or a
missing upstream, every other failure classified by pushErrorResult
with no retry. -/
def gitPushExec (env : PushExecEnv) : GitOpResult × List (List String) :=
  match env.branchQuery with
  | .error msg => (pushErrorResult msg, [["branch", "--show-current"]])
  | .ok branch =>
    if branch = "" ∨ strTrim branch = "" then
      ({ success := false, error := some "Not on any branch. Checkout a branch first." },
       [["branch", "--show-current"]])
    else
      let b := strTrim branch
      match env.pushPrimary with
      | .ok r =>
        ({ success := true, result := some r },
         [["branch", "--show-current"], ["push", "origin", b]])
      | .error msg =>
        if strIncludes msg "--set-upstream" || strIncludes msg "has no upstream" then
          match env.pushUpstream with
          | .ok r =>
            ({ success := true, result := some r },
             [["branch", "--show-current"], ["push", "origin", b],
              ["push", "--set-upstream", "origin", b]])
          | .error m2 =>
            (pushErrorResult m2,
             [["branch", "--show-current"], ["push", "origin", b],
              ["push", "--set-upstream", "origin", b]])
        else
          (pushErrorResult msg, [["branch", "--show-current"], ["push", "origin", b]])

/-- One registry entry. -/
structure RepoEntry where
  name : String
  path : String
deriving DecidableEq

/-- Filesystem environment of the registry handlers: the set of paths
containing a .git directory, and whether writing the registry file
succeeds. -/
structure FsEnv where
  gitDirs : List String
  saveOk : Bool
deriving DecidableEq

/-- Last path component, as path.basename acts on the slash-separated
paths used here. -/
def basename (p : String) : String :=
  (((splitChAux '/' p.data).map (fun l => (⟨l⟩ : String))).filter (fun s => !(s == ""))).getLastD p

/-- Registry operation result. -/
structure RegResult where
  success : Bool
  error : Option String := none
deriving DecidableEq

/-- Add handler from src/main-process-handlers.js lines 220 to 258:
validate the path, require a .git directory, reject a duplicate path,
append the entry and persist; a failed save leaves the stored registry
unchanged. -/
def addRepository (env : FsEnv) (regs : List RepoEntry) (repoPath : String) :
    RegResult × List RepoEntry :=
  if repoPath = "" then
    ({ success := false, error := some "Repository path is required" }, regs)
  else if env.gitDirs.contains repoPath = false then
    ({ success := false, error := some "Not a Git repository" }, regs)
  else if regs.any (fun r => r.path == repoPath) = true then
    ({ success := false, error := some "Repository already added" }, regs)
  else if env.saveOk = true then
    ({ success := true }, regs ++ [{ name := basename repoPath, path := repoPath }])
  else
    ({ success := false, error := some "Failed to save repository" }, regs)

/-- Remove handler from src/main-process-handlers.js lines 261 to 284:
validate the path, keep every entry whose path differs, persist; a
failed save leaves the stored registry unchanged. -/
def removeRepository (env : FsEnv) (regs : List RepoEntry) (repoPath : String) :
    RegResult × List RepoEntry :=
  if repoPath = "" then
    ({ success := false, error := some "Repository path is required" }, regs)
  else
    let filtered := regs.filter (fun r => !(r.path == repoPath))
    if env.saveOk = true then ({ success := true }, filtered)
    else ({ success := false, error := some "Failed to save repositories" }, regs)

/-- Modelled from the spec: the remote listing command prints one remote
name per line, and a repository has an origin remote exactly when some
line of that listing equals origin.  The repository state itself is not
part of the embedded handlers, which only see the listing text. -/
def hasOriginRemote (remotesOutput : String) : Bool :=
  (splitLines remotesOutput).contains "origin"

/-- Concrete pull environment reaching the three-pull path: the rebase
pull fails on unstaged changes, the stash succeeds, the retried rebase
pull fails, and the handler falls back to a plain pull. -/
def pullCexEnv : PullEnv :=
  { remoteUrl := some "https://example.com/repo.git",
    branch := some "main",
    rebasePullA := .error "error: cannot pull with rebase: You have unstaged changes.",
    stash := .ok "Saved working directory",
    rebasePullB := .error "error: could not apply commit",
    stashPop := .ok "",
    plainPull := .ok "Merge made" }

/-- Concrete streaming push environment whose only remote is named
origin-backup: no origin remote exists, yet the substring check passes
and the push is issued. -/
def pushStreamCexEnv : PushStreamEnv :=
  { remotes := some "origin-backup",
    branchQuery := some "main",
    pushResult := .error "fatal: could not read from remote repository" }

/- Helper facts about the command lists, shared by the pull and push
theorems. -/

lemma pullCmdRebase_head (x : String) : ((pullCmdRebase x).headD "" == "pull") = true := rfl

lemma pullCmdPlain_head (x : String) : ((pullCmdPlain x).headD "" == "pull") = true := rfl

lemma pullCmdRebase_beq_stash (x : String) : (pullCmdRebase x == ["stash"]) = false := rfl

lemma pullCmdPlain_beq_stash (x : String) : (pullCmdPlain x == ["stash"]) = false := rfl

lemma pullCmdRebase_beq_pop (x : String) : (pullCmdRebase x == ["stash", "pop"]) = false := rfl

lemma pullCmdPlain_beq_pop (x : String) : (pullCmdPlain x == ["stash", "pop"]) = false := rfl

/-- C9: any failure of the underlying git command during the read-only
queries status, log and branches yields the empty list at the external
interface; no error value escapes. -/
theorem readOnly_queries_swallow_failures :
    ∀ e : String, gitStatus (.error e) = [] ∧ gitLog (.error e) = [] ∧ gitBranches (.error e) = [] :=
  fun _ => ⟨rfl, rfl, rfl⟩

/-- C5: the commit handler passes the message to the git process as one
discrete argument of the execFile argument vector, with no shell
interpretation, so any message, also one holding double quotes, a
backtick or a dollar sign, reaches git verbatim. -/
theorem commitArgs_discrete_argument :
    (∀ m : String, execFileArgv "git" (commitArgs m) = ["git", "commit", "-m", m] ∧
      (commitArgs m).get? 2 = some m ∧ (commitArgs m).length = 3) ∧
    (∀ m : String, ∀ r : Except String String, (gitCommit m r).2 = commitArgs m) ∧
    execFileArgv "git" (commitArgs "fix \"quoted\" `ticked` $dollar") =
      ["git", "commit", "-m", "fix \"quoted\" `ticked` $dollar"] :=
  ⟨fun _ => ⟨rfl, rfl, rfl⟩, fun _ _ => rfl, rfl⟩

/-- C6: every failure text containing a network pattern is classified
NETWORK_ERROR and never UNKNOWN_ERROR; the classifier is a total
function into the five categories, and the lowest rule that matches
wins, in the order network, authentication, conflict, missing upstream. -/
theorem classifyGitError_network_priority :
    (∀ msg pat, pat ∈ networkPatterns → strIncludes (strToLower msg) pat = true →
      classifyGitError msg = "NETWORK_ERROR") ∧
    (∀ msg, classifyGitError msg = "NETWORK_ERROR" ∨ classifyGitError msg = "AUTH_ERROR" ∨
      classifyGitError msg = "CONFLICT_ERROR" ∨ classifyGitError msg = "NO_UPSTREAM" ∨
      classifyGitError msg = "UNKNOWN_ERROR") ∧
    (∀ msg, isNetworkErr (strToLower msg) = true → classifyGitError msg ≠ "UNKNOWN_ERROR") ∧
    (∀ msg, isNetworkErr (strToLower msg) = false → isAuthErr (strToLower msg) = true →
      classifyGitError msg = "AUTH_ERROR") ∧
    (∀ msg, isNetworkErr (strToLower msg) = false → isAuthErr (strToLower msg) = false →
      isConflictErr (strToLower msg) = true → classifyGitError msg = "CONFLICT_ERROR") ∧
    (∀ msg, isNetworkErr (strToLower msg) = false → isAuthErr (strToLower msg) = false →
      isConflictErr (strToLower msg) = false → isNoUpstreamErr (strToLower msg) = true →
      classifyGitError msg = "NO_UPSTREAM") := by
  refine ⟨?_, ?_, ?_, ?_, ?_, ?_⟩
  · intro msg pat hmem hinc
    have hnet : isNetworkErr (strToLower msg) = true := by
      fin_cases hmem <;> simp [isNetworkErr, hinc]
    simp [classifyGitError, hnet]
  · intro msg
    by_cases h1 : isNetworkErr (strToLower msg) = true
    · exact Or.inl (by simp [classifyGitError, h1])
    by_cases h2 : isAuthErr (strToLower msg) = true
    · exact Or.inr (Or.inl (by simp [classifyGitError, h1, h2]))
    by_cases h3 : isConflictErr (strToLower msg) = true
    · exact Or.inr (Or.inr (Or.inl (by simp [classifyGitError, h1, h2, h3])))
    by_cases h4 : isNoUpstreamErr (strToLower msg) = true
    · exact Or.inr (Or.inr (Or.inr (Or.inl (by simp [classifyGitError, h1, h2, h3, h4]))))
    exact Or.inr (Or.inr (Or.inr (Or.inr (by simp [classifyGitError, h1, h2, h3, h4]))))
  · intro msg h
    simp [classifyGitError, h]
  · intro msg h1 h2
    simp [classifyGitError, h1, h2]
  · intro msg h1 h2 h3
    simp [classifyGitError, h1, h2, h3]
  · intro msg h1 h2 h3 h4
    simp [classifyGitError, h1, h2, h3, h4]

/-- C6 witness: a concrete connection-refused text is classified
NETWORK_ERROR through the pattern rule. -/
theorem classifyGitError_network_priority_witness :
    classifyGitError "ssh: connect to host github.com port 22: Connection refused" = "NETWORK_ERROR" :=
  classifyGitError_network_priority.1
    "ssh: connect to host github.com port 22: Connection refused"
    "connection refused" (by decide) (by decide)

/-- C7 counterexample: the porcelain code AD is none of A, D, M or the
double question mark, yet the status handler maps it to deleted, not to
the claimed default of modified; likewise UA maps to added.  The
containment tests of the cascade fire on multi-letter codes. -/
theorem gitStatus_default_modified_cex :
    "AD" ≠ "A" ∧ "AD" ≠ "D" ∧ "AD" ≠ "M" ∧ "AD" ≠ "??" ∧
    statusTextOf "AD" = "deleted" ∧ ¬ statusTextOf "AD" = "modified" ∧
    "UA" ≠ "A" ∧ "UA" ≠ "D" ∧ "UA" ≠ "M" ∧ "UA" ≠ "??" ∧
    statusTextOf "UA" = "added" ∧ ¬ statusTextOf "UA" = "modified" ∧
    parseStatusLine "AD old.txt" = { file := "old.txt", status := "deleted" } := by decide

/-- C7 (amended): the status handler takes the trimmed remainder of the
line from column three as the file path and classifies the trimmed
first two columns by a last-match-wins cascade of containment tests: a
code containing M is modified, a code containing D but not M is
deleted, a code containing A but none of D and M is added, the exact
code of two question marks is untracked, and only a code containing
none of A, D and M and different from the question marks defaults to
modified; the concrete tree with two modified files and one untracked
file yields exactly those three entries. -/
theorem gitStatus_porcelain_mapping :
    statusTextOf "A" = "added" ∧ statusTextOf "D" = "deleted" ∧
    statusTextOf "M" = "modified" ∧ statusTextOf "??" = "untracked" ∧
    (∀ code : String, strIncludes code "M" = true → statusTextOf code = "modified") ∧
    (∀ code : String, strIncludes code "D" = true → strIncludes code "M" = false →
      statusTextOf code = "deleted") ∧
    (∀ code : String, strIncludes code "A" = true → strIncludes code "D" = false →
      strIncludes code "M" = false → statusTextOf code = "added") ∧
    (∀ code : String, strIncludes code "A" = false → strIncludes code "D" = false →
      strIncludes code "M" = false → code ≠ "??" → statusTextOf code = "modified") ∧
    (∀ line : String, parseStatusLine line =
      { file := strTrim (strDrop line 3), status := statusTextOf (strTrim (strTake line 2)) }) ∧
    gitStatus (.ok " M file1.txt\n M file2.txt\n?? notes.md") =
      [{ file := "file1.txt", status := "modified" },
       { file := "file2.txt", status := "modified" },
       { file := "notes.md", status := "untracked" }] := by
  refine ⟨by decide, by decide, by decide, by decide, ?_, ?_, ?_, ?_, fun line => rfl, by decide⟩
  · intro code hM
    have hq : code ≠ "??" := by rintro rfl; revert hM; decide
    simp [statusTextOf, hM, hq]
  · intro code hD hM
    have hq : code ≠ "??" := by rintro rfl; revert hD; decide
    have hcM : code ≠ "M" := by rintro rfl; revert hM; decide
    simp [statusTextOf, hD, hM, hq, hcM]
  · intro code hA hD hM
    have hq : code ≠ "??" := by rintro rfl; revert hA; decide
    have hcD : code ≠ "D" := by rintro rfl; revert hD; decide
    have hcM : code ≠ "M" := by rintro rfl; revert hM; decide
    simp [statusTextOf, hA, hD, hM, hq, hcD, hcM]
  · intro code hA hD hM hq
    have hcA : code ≠ "A" := by rintro rfl; revert hA; decide
    have hcD : code ≠ "D" := by rintro rfl; revert hD; decide
    have hcM : code ≠ "M" := by rintro rfl; revert hM; decide
    simp [statusTextOf, hA, hD, hM, hq, hcA, hcD, hcM]

/-- C7 witness: the multi-letter code AM lands on modified through the
containment cascade, the code AD on deleted, and a code touching none
of the listed letters falls back to modified. -/
theorem gitStatus_porcelain_mapping_witness :
    statusTextOf "AM" = "modified" ∧ statusTextOf "AD" = "deleted" ∧
    statusTextOf "R" = "modified" :=
  ⟨gitStatus_porcelain_mapping.2.2.2.2.1 "AM" (by decide),
   gitStatus_porcelain_mapping.2.2.2.2.2.1 "AD" (by decide) (by decide),
   gitStatus_porcelain_mapping.2.2.2.2.2.2.2.1 "R"
     (by decide) (by decide) (by decide) (by decide)⟩

/-- C8: adding a valid repository path twice succeeds the first time,
fails the second time with the already-added message, leaves the
registry unchanged on the second call, and the registry holds exactly
one entry with that path afterwards. -/
theorem addRepository_idempotent (env : FsEnv) (regs : List RepoEntry) (p : String)
    (hp : p ≠ "") (hgit : env.gitDirs.contains p = true) (hsave : env.saveOk = true)
    (habs : regs.any (fun r => r.path == p) = false) :
    (addRepository env regs p).1.success = true ∧
    (addRepository env (addRepository env regs p).2 p).1.success = false ∧
    (addRepository env (addRepository env regs p).2 p).1.error = some "Repository already added" ∧
    (addRepository env (addRepository env regs p).2 p).2 = (addRepository env regs p).2 ∧
    (addRepository env regs p).2.countP (fun r => r.path == p) = 1 := by
  have hmem : p ∈ env.gitDirs := by simpa using hgit
  have h1 : addRepository env regs p =
      ({ success := true }, regs ++ [{ name := basename p, path := p }]) := by
    unfold addRepository
    rw [if_neg hp, if_neg (by simp [hmem]), if_neg (by simp [habs]), if_pos hsave]
  have hany : (regs ++ [({ name := basename p, path := p } : RepoEntry)]).any
      (fun r => r.path == p) = true := by
    simp [List.any_append, List.any_cons, List.any_nil]
  have h2 : addRepository env (regs ++ [{ name := basename p, path := p }]) p =
      ({ success := false, error := some "Repository already added" },
       regs ++ [{ name := basename p, path := p }]) := by
    unfold addRepository
    rw [if_neg hp, if_neg (by simp [hmem]), if_pos hany]
  have h0 : regs.countP (fun r => r.path == p) = 0 := by
    rw [List.countP_eq_zero]
    intro a ha
    have := List.any_eq_false.mp habs a ha
    simpa using this
  rw [h1, h2]
  refine ⟨rfl, rfl, rfl, rfl, ?_⟩
  simp [List.countP_append, h0, List.countP_cons]

/-- C8 witness: a concrete valid path added twice from the empty
registry. -/
theorem addRepository_idempotent_witness :
    (addRepository ⟨["/home/user/proj"], true⟩ [] "/home/user/proj").1.success = true ∧
    (addRepository ⟨["/home/user/proj"], true⟩
      (addRepository ⟨["/home/user/proj"], true⟩ [] "/home/user/proj").2
      "/home/user/proj").1.success = false ∧
    (addRepository ⟨["/home/user/proj"], true⟩
      (addRepository ⟨["/home/user/proj"], true⟩ [] "/home/user/proj").2
      "/home/user/proj").1.error = some "Repository already added" ∧
    (addRepository ⟨["/home/user/proj"], true⟩
      (addRepository ⟨["/home/user/proj"], true⟩ [] "/home/user/proj").2
      "/home/user/proj").2 =
      (addRepository ⟨["/home/user/proj"], true⟩ [] "/home/user/proj").2 ∧
    (addRepository ⟨["/home/user/proj"], true⟩ [] "/home/user/proj").2.countP
      (fun r => r.path == "/home/user/proj") = 1 :=
  addRepository_idempotent ⟨["/home/user/proj"], true⟩ [] "/home/user/proj"
    (by decide) (by decide) rfl (by decide)

/-- C10: removing a non-empty path succeeds even when no entry with
that path exists, removes every entry carrying the path, and a second
removal also succeeds and leaves the registry unchanged, provided
saving succeeds. -/
theorem removeRepository_absent_ok (env : FsEnv) (regs : List RepoEntry) (p : String)
    (hp : p ≠ "") (hsave : env.saveOk = true) :
    (removeRepository env regs p).1.success = true ∧
    (removeRepository env regs p).2.countP (fun r => r.path == p) = 0 ∧
    (removeRepository env (removeRepository env regs p).2 p).1.success = true ∧
    (removeRepository env (removeRepository env regs p).2 p).2 = (removeRepository env regs p).2 := by
  have h1 : removeRepository env regs p =
      ({ success := true }, regs.filter (fun r => !(r.path == p))) := by
    unfold removeRepository
    rw [if_neg hp, if_pos hsave]
  have h2 : removeRepository env (regs.filter (fun r => !(r.path == p))) p =
      ({ success := true },
       (regs.filter (fun r => !(r.path == p))).filter (fun r => !(r.path == p))) := by
    unfold removeRepository
    rw [if_neg hp, if_pos hsave]
  have hself : (regs.filter (fun r => !(r.path == p))).filter (fun r => !(r.path == p)) =
      regs.filter (fun r => !(r.path == p)) := by
    rw [List.filter_eq_self]
    intro a ha
    exact (List.mem_filter.mp ha).2
  rw [h1, h2, hself]
  refine ⟨rfl, ?_, rfl, rfl⟩
  rw [List.countP_eq_zero]
  intro a ha
  have hmem := (List.mem_filter.mp ha).2
  simp at hmem ⊢
  exact hmem

/-- C10 witness: removing a path absent from a one-entry registry
succeeds twice and never changes the surviving entry. -/
theorem removeRepository_absent_ok_witness :
    (removeRepository ⟨[], true⟩ [{ name := "proj", path := "/home/user/proj" }] "/tmp/other").1.success = true ∧
    (removeRepository ⟨[], true⟩ [{ name := "proj", path := "/home/user/proj" }] "/tmp/other").2.countP
      (fun r => r.path == "/tmp/other") = 0 ∧
    (removeRepository ⟨[], true⟩
      (removeRepository ⟨[], true⟩ [{ name := "proj", path := "/home/user/proj" }] "/tmp/other").2
      "/tmp/other").1.success = true ∧
    (removeRepository ⟨[], true⟩
      (removeRepository ⟨[], true⟩ [{ name := "proj", path := "/home/user/proj" }] "/tmp/other").2
      "/tmp/other").2 =
      (removeRepository ⟨[], true⟩ [{ name := "proj", path := "/home/user/proj" }] "/tmp/other").2 :=
  removeRepository_absent_ok ⟨[], true⟩ [{ name := "proj", path := "/home/user/proj" }] "/tmp/other"
    (by decide) rfl

/-- C1 counterexample: a repository whose only remote is named
origin-backup has no origin remote, yet the substring containment check
of the streaming push handler passes, the push command is issued, and
the returned errorType is not NO_REMOTE. -/
theorem gitPushStream_no_origin_cex :
    hasOriginRemote "origin-backup" = false ∧
    (gitPushStream pushStreamCexEnv).2.countP (fun c => c.headD "" == "push") = 1 ∧
    (gitPushStream pushStreamCexEnv).1.success = false ∧
    (gitPushStream pushStreamCexEnv).1.errorType = some "AUTH_ERROR" ∧
    ¬ (gitPushStream pushStreamCexEnv).1.errorType = some "NO_REMOTE" := by decide

/-- C1 (amended): whenever the remote listing seen by the streaming
push handler does not contain origin as a substring, in particular
whenever no remote at all is configured, the handler returns a failure
with errorType NO_REMOTE and never issues the push command. -/
theorem gitPushStream_no_origin_substring (env : PushStreamEnv)
    (h : strIncludes (env.remotes.getD "") "origin" = false) :
    (gitPushStream env).1.success = false ∧
    (gitPushStream env).1.errorType = some "NO_REMOTE" ∧
    (gitPushStream env).2.countP (fun c => c.headD "" == "push") = 0 := by
  have hc : env.remotes.getD "" = "" ∨ strIncludes (env.remotes.getD "") "origin" = false :=
    Or.inr h
  simp only [gitPushStream, if_pos hc]
  exact ⟨trivial, trivial, by decide⟩

/-- C1 witness: a repository whose remote listing is the single name
upstream is rejected with NO_REMOTE before any push. -/
theorem gitPushStream_no_origin_substring_witness :
    (gitPushStream ⟨some "upstream", some "main", .ok ""⟩).1.success = false ∧
    (gitPushStream ⟨some "upstream", some "main", .ok ""⟩).1.errorType = some "NO_REMOTE" ∧
    (gitPushStream ⟨some "upstream", some "main", .ok ""⟩).2.countP
      (fun c => c.headD "" == "push") = 0 :=
  gitPushStream_no_origin_substring ⟨some "upstream", some "main", .ok ""⟩ (by decide)

/-- C2 counterexample: when the rebase pull fails on unstaged changes,
the stash succeeds, the retried rebase pull fails and the handler falls
back to a plain pull, one call issues three pull invocations. -/
theorem gitPull_three_attempts_cex :
    (gitPull pullCexEnv).2.countP (fun c => c.headD "" == "pull") = 3 ∧
    ¬ (gitPull pullCexEnv).2.countP (fun c => c.headD "" == "pull") ≤ 2 := by decide


/-- C2 (amended): every pull call issues at most three pull
invocations, the third arising only on the path where the stash-based
recovery was entered and its retried rebase pull did not succeed; in
particular there is no unbounded retry loop. -/
theorem gitPull_at_most_three (env : PullEnv) :
    (gitPull env).2.countP (fun c => c.headD "" == "pull") ≤ 3 := by
  unfold gitPull
  repeat' split
  all_goals try simp +decide [List.countP_cons, List.countP_nil, List.countP_append,
    pullCmdRebase, pullCmdPlain]
  all_goals try (split <;> simp +decide [List.countP_cons, List.countP_nil, List.countP_append,
    pullCmdRebase, pullCmdPlain])

/-- C3: the stash recovery sequence of the pull handler runs at most
once per call, and whenever the rebase pull fails on unstaged or
uncommitted changes, the stash succeeds and the retried rebase pull
succeeds, the call returns success with the retried result, issuing
exactly one stash and one stash pop, whatever the outcome of the stash
pop. -/
theorem gitPull_stash_recovery :
    (∀ env : PullEnv, (gitPull env).2.countP (fun c => c == ["stash"]) ≤ 1) ∧
    (∀ u b msg sv rv pop pl,
      (strIncludes (strToLower msg) "unstaged" || strIncludes (strToLower msg) "uncommitted") = true →
      u ≠ "" → strTrim b ≠ "" →
      (gitPull ⟨some u, some b, .error msg, .ok sv, .ok rv, pop, pl⟩).1.success = true ∧
      (gitPull ⟨some u, some b, .error msg, .ok sv, .ok rv, pop, pl⟩).1.result = some rv ∧
      (gitPull ⟨some u, some b, .error msg, .ok sv, .ok rv, pop, pl⟩).2.countP
        (fun c => c == ["stash"]) = 1 ∧
      (gitPull ⟨some u, some b, .error msg, .ok sv, .ok rv, pop, pl⟩).2.countP
        (fun c => c == ["stash", "pop"]) = 1) := by
  constructor
  · intro env
    unfold gitPull
    repeat' split
    all_goals try simp +decide [List.countP_cons, List.countP_nil, List.countP_append,
      pullCmdRebase, pullCmdPlain]
    all_goals try (split <;> simp +decide [List.countP_cons, List.countP_nil, List.countP_append,
      pullCmdRebase, pullCmdPlain])
  · intro u b msg sv rv pop pl hmsg hu hb
    have hor : strIncludes (strToLower msg) "unstaged" = true ∨
        strIncludes (strToLower msg) "uncommitted" = true := by simpa using hmsg
    have hb0 : b ≠ "" := by rintro rfl; exact hb rfl
    simp +decide [gitPull, hu, hb0, hb, hor, List.countP_cons, List.countP_nil,
      List.countP_append, pullCmdRebase, pullCmdPlain]

/-- C3 witness: a concrete unstaged-changes recovery succeeds both when
the stash pop fails on conflicts and when it succeeds, with exactly one
stash issued. -/
theorem gitPull_stash_recovery_witness :
    (gitPull ⟨some "https://example.com/r.git", some "main",
        .error "error: cannot pull with rebase: You have unstaged changes.",
        .ok "Saved", .ok "Updated", .error "conflict: could not apply stash", .ok "x"⟩).1.success = true ∧
    (gitPull ⟨some "https://example.com/r.git", some "main",
        .error "error: cannot pull with rebase: You have unstaged changes.",
        .ok "Saved", .ok "Updated", .ok "Dropped stash", .ok "x"⟩).1.success = true ∧
    (gitPull ⟨some "https://example.com/r.git", some "main",
        .error "error: cannot pull with rebase: You have unstaged changes.",
        .ok "Saved", .ok "Updated", .error "conflict: could not apply stash", .ok "x"⟩).2.countP
      (fun c => c == ["stash"]) = 1 :=
  ⟨(gitPull_stash_recovery.2 _ _ _ _ _ _ _ (by decide) (by decide) (by decide)).1,
   (gitPull_stash_recovery.2 _ _ _ _ _ _ _ (by decide) (by decide) (by decide)).1,
   (gitPull_stash_recovery.2 _ _ _ _ _ _ _ (by decide) (by decide) (by decide)).2.2.1⟩

/-- C4: on a checked-out branch the primary attempt of the push handler
is push origin branch without the set-upstream flag; exactly one retry
with the set-upstream flag happens when and only when the primary
failure text names the flag or a missing upstream, a successful retry
yields success, and no other failure triggers a second push. -/
theorem gitPushExec_upstream_retry (b : String) (pp pu : Except String String)
    (hb : strTrim b ≠ "") :
    (gitPushExec ⟨.ok b, pp, pu⟩).2.get? 1 = some ["push", "origin", strTrim b] ∧
    (∀ r, pp = .ok r → (gitPushExec ⟨.ok b, pp, pu⟩).2.countP
      (fun c => c.headD "" == "push") = 1) ∧
    (∀ msg, pp = .error msg →
      (strIncludes msg "--set-upstream" || strIncludes msg "has no upstream") = true →
      (gitPushExec ⟨.ok b, pp, pu⟩).2 =
        [["branch", "--show-current"], ["push", "origin", strTrim b],
         ["push", "--set-upstream", "origin", strTrim b]]) ∧
    (∀ msg r, pp = .error msg →
      (strIncludes msg "--set-upstream" || strIncludes msg "has no upstream") = true →
      pu = .ok r → (gitPushExec ⟨.ok b, pp, pu⟩).1.success = true) ∧
    (∀ msg, pp = .error msg →
      (strIncludes msg "--set-upstream" || strIncludes msg "has no upstream") = false →
      (gitPushExec ⟨.ok b, pp, pu⟩).2.countP (fun c => c.headD "" == "push") = 1) := by
  have hb0 : b ≠ "" := by rintro rfl; exact hb rfl
  refine ⟨?_, ?_, ?_, ?_, ?_⟩
  · cases pp with
    | ok r => simp +decide [gitPushExec, hb0, hb]
    | error msg =>
      by_cases hm : (strIncludes msg "--set-upstream" || strIncludes msg "has no upstream") = true
      · have hor : strIncludes msg "--set-upstream" = true ∨
            strIncludes msg "has no upstream" = true := by simpa using hm
        cases pu <;> simp +decide [gitPushExec, hb0, hb, hor]
      · have hand : ¬(strIncludes msg "--set-upstream" = true ∨
            strIncludes msg "has no upstream" = true) := by
          intro h
          exact hm (by simpa using h)
        simp +decide [gitPushExec, hb0, hb, hand]
  · rintro r rfl
    simp +decide [gitPushExec, hb0, hb]
  · rintro msg rfl hm
    have hor : strIncludes msg "--set-upstream" = true ∨
        strIncludes msg "has no upstream" = true := by simpa using hm
    cases pu <;> simp +decide [gitPushExec, hb0, hb, hor]
  · rintro msg r rfl hm rfl
    have hor : strIncludes msg "--set-upstream" = true ∨
        strIncludes msg "has no upstream" = true := by simpa using hm
    simp +decide [gitPushExec, hb0, hb, hor]
  · rintro msg rfl hm
    have hand : ¬(strIncludes msg "--set-upstream" = true ∨
        strIncludes msg "has no upstream" = true) := by
      intro h
      exact absurd (by simpa using h) (by simpa using hm)
    simp +decide [gitPushExec, hb0, hb, hand, pushErrorResult, List.countP_cons, List.countP_nil]

/-- C4 witness: a first push of a never-pushed branch triggers exactly
one upstream-setting retry and the call succeeds. -/
theorem gitPushExec_upstream_retry_witness :
    (gitPushExec ⟨.ok "main", .error "fatal: The current branch main has no upstream branch.",
        .ok "Branch main set up to track origin/main."⟩).2 =
      [["branch", "--show-current"], ["push", "origin", "main"],
       ["push", "--set-upstream", "origin", "main"]] ∧
    (gitPushExec ⟨.ok "main", .error "fatal: The current branch main has no upstream branch.",
        .ok "Branch main set up to track origin/main."⟩).1.success = true :=
  ⟨(gitPushExec_upstream_retry "main" _ _ (by decide)).2.2.1 _ rfl (by decide),
   (gitPushExec_upstream_retry "main" _ _ (by decide)).2.2.2.1 _ _ rfl (by decide) rfl⟩
